import Mathlib

/-!
Verification of the vm2 instruction decoder (src/decode.rs).

The decoder transforms parsed instruction words into typed instruction
records.  The raw bit-layout parser
(EncodingModeProduction::parse_preliminary_variant_and_absolute_number from
the zkevm_opcode_defs crate) is an external collaborator fixed by the ISA
contract, so the embedding works at the level of its output: a ParsedWord
record carrying the opcode family, the per-operand encoding tags, the two
16-bit immediates, the four register indices, the condition code and the
two relevant flag bits.  Rust panics (panic!, todo!) are modelled as
Except errors.
-/

namespace Vm2

/-- The RegOrImmFlags enum of zkevm_opcode_defs: sub-tags of the
RegOrImm operand class. -/
inductive RegOrImmFlags where
  | UseRegOnly
  | UseImm16Only
  deriving DecidableEq

/-- The ImmMemHandlerFlags enum of zkevm_opcode_defs: sub-tags of the
Full operand class. -/
inductive ImmMemHandlerFlags where
  | UseRegOnly
  | UseStackWithPushPop
  | UseStackWithOffset
  | UseAbsoluteOnStack
  | UseImm16Only
  | UseCodePage
  deriving DecidableEq

/-- The Operand enum of zkevm_opcode_defs: the encoding tag of one
operand position. -/
inductive Operand where
  | RegOnly
  | RegOrImm (f : RegOrImmFlags)
  | Full (f : ImmMemHandlerFlags)
  deriving DecidableEq

/-- The 8-valued Condition enum of zkevm_opcode_defs. -/
inductive Condition where
  | Always
  | Gt
  | Lt
  | Eq
  | Ge
  | Le
  | Ne
  | GtOrLt
  deriving DecidableEq, Fintype

/-- The BinopOpcode sub-enum of zkevm_opcode_defs. -/
inductive BinopOpcode where
  | Xor
  | And
  | Or
  deriving DecidableEq

/-- The ShiftOpcode sub-enum of zkevm_opcode_defs. -/
inductive ShiftOpcode where
  | Shl
  | Shr
  | Rol
  | Ror
  deriving DecidableEq

/-- The PtrOpcode sub-enum of zkevm_opcode_defs. -/
inductive PtrOpcode where
  | Add
  | Sub
  | Pack
  | Shrink
  deriving DecidableEq

/-- The opcode-family tag of zkevm_opcode_defs, with the inner payloads
that decode.rs never inspects elided (it matches them with a wildcard). -/
inductive Opcode where
  | Add
  | Sub
  | Mul
  | Div
  | Binop (x : BinopOpcode)
  | Shift (x : ShiftOpcode)
  | Jump
  | Context
  | Ptr (x : PtrOpcode)
  | NearCall
  | Log
  | FarCall
  | Ret
  | UMA
  | Invalid
  | Nop
  deriving DecidableEq

/-- Output of the external bit-layout parser for one raw 64-bit word:
opcode family, per-operand encoding tags for src0 and dst0, two 16-bit
immediates, four register indices, the condition code, and the two flag
bits read by decode.rs (swap-operands and set-flags). -/
structure ParsedWord where
  opcode : Opcode
  condition : Condition
  src0_operand_type : Operand
  dst0_operand_type : Operand
  imm_0 : Nat
  imm_1 : Nat
  src0_reg_idx : Nat
  src1_reg_idx : Nat
  dst0_reg_idx : Nat
  dst1_reg_idx : Nat
  flag_swap_operands : Bool
  flag_set_flags : Bool
  deriving DecidableEq

/-- The Register type of the vm2 addressing_modes module: an opaque
small register-file index (spec section 3). -/
structure Register where
  index : Nat
  deriving DecidableEq

/-- Register::new. -/
def Register.new (n : Nat) : Register := ⟨n⟩

/-- StackLikeParameters: the (16-bit immediate offset, Register) pair
used by every stack/code-page addressing variant. -/
structure StackLikeParameters where
  immediate : Nat
  register : Register
  deriving DecidableEq

/-- AnySource: the closed source-operand union of the vm2
addressing_modes module. -/
inductive AnySource where
  | Register1 (r : Register)
  | Immediate1 (v : Nat)
  | AbsoluteStack (p : StackLikeParameters)
  | AdvanceStackPointer (p : StackLikeParameters)
  | RelativeStack (p : StackLikeParameters)
  | CodePage (p : StackLikeParameters)
  deriving DecidableEq

/-- AnyDestination: the closed destination-operand union; Immediate and
CodePage are structurally excluded. -/
inductive AnyDestination where
  | Register1 (r : Register)
  | AbsoluteStack (p : StackLikeParameters)
  | AdvanceStackPointer (p : StackLikeParameters)
  | RelativeStack (p : StackLikeParameters)
  deriving DecidableEq

/-- The vm2 Predicate enum, target of the condition-code renaming. -/
inductive Predicate where
  | Always
  | IfGT
  | IfLT
  | IfEQ
  | IfGE
  | IfLE
  | IfNotEQ
  | IfGtOrLT
  deriving DecidableEq

/-- The eleven binary-operation tags passed to Instruction::from_binop
by decode.rs (the type parameter of the binop macro). -/
inductive BinopTag where
  | Add
  | Sub
  | Mul
  | Div
  | Xor
  | And
  | Or
  | ShiftLeft
  | ShiftRight
  | RotateLeft
  | RotateRight
  deriving DecidableEq

/-- Modelled from the spec: the Instruction record and its constructors
(Instruction::from_binop, Instruction::from_jump, Instruction::from_nop,
jump_to_beginning, end_execution) live in crate modules outside
src/decode.rs.  Spec section 3 describes Instruction as an immutable
record binding an opcode-family tag, resolved source, second source
register, resolved destination, optional second destination register,
predicate and the two flags; from_nop carries a pop-side and a push-side
AdvanceStackPointer adjustment (here their StackLikeParameters payloads);
jump_to_beginning and end_execution are the two synthesized sentinel
instructions of spec section 4.5. -/
inductive Instruction where
  | from_binop (op : BinopTag) (src1 : AnySource) (src2 : Register)
      (out : AnyDestination) (out2 : Option Register)
      (predicate : Predicate) (swap : Bool) (set_flags : Bool)
  | from_jump (target : AnySource) (predicate : Predicate)
  | from_nop (pop : StackLikeParameters) (push : StackLikeParameters)
  | jump_to_beginning
  | end_execution
  deriving DecidableEq

/-- The two fatal decode-time conditions of decode.rs, modelled as typed
errors: the two destination panics (EncodingViolation) and the todo
branches for unimplemented opcode families (UnsupportedOpcode). -/
inductive DecodeError where
  | EncodingViolation
  | UnsupportedOpcode
  deriving DecidableEq

/-- The predicate match of decode.rs lines 35 to 44: renames the parsed
condition code into a Predicate. -/
def predicateOf : Condition → Predicate
  | .Always => .Always
  | .Gt => .IfGT
  | .Lt => .IfLT
  | .Eq => .IfEQ
  | .Ge => .IfGE
  | .Le => .IfLE
  | .Ne => .IfNotEQ
  | .GtOrLt => .IfGtOrLT

/-- The source-operand match of decode.rs lines 46 to 61 (stack_in and
src1): resolves the src0 encoding tag into an AnySource. -/
def resolve_source (w : ParsedWord) : AnySource :=
  let stack_in : StackLikeParameters :=
    ⟨w.imm_0, Register.new w.src0_reg_idx⟩
  match w.src0_operand_type with
  | .RegOnly | .RegOrImm .UseRegOnly | .Full .UseRegOnly =>
      .Register1 (Register.new w.src0_reg_idx)
  | .RegOrImm .UseImm16Only | .Full .UseImm16Only =>
      .Immediate1 w.imm_0
  | .Full .UseAbsoluteOnStack => .AbsoluteStack stack_in
  | .Full .UseStackWithPushPop => .AdvanceStackPointer stack_in
  | .Full .UseStackWithOffset => .RelativeStack stack_in
  | .Full .UseCodePage => .CodePage stack_in

/-- The destination-operand match of decode.rs lines 63 to 78 (stack_out
and out): resolves the dst0 encoding tag into an AnyDestination, with the
two panic arms (immediate-16 and code-page) modelled as EncodingViolation
errors. -/
def resolve_destination (w : ParsedWord) : Except DecodeError AnyDestination :=
  let stack_out : StackLikeParameters :=
    ⟨w.imm_1, Register.new w.dst0_reg_idx⟩
  match w.dst0_operand_type with
  | .RegOnly | .RegOrImm .UseRegOnly | .Full .UseRegOnly =>
      .ok (.Register1 (Register.new w.dst0_reg_idx))
  | .RegOrImm .UseImm16Only | .Full .UseImm16Only =>
      .error .EncodingViolation
  | .Full .UseAbsoluteOnStack => .ok (.AbsoluteStack stack_out)
  | .Full .UseStackWithPushPop => .ok (.AdvanceStackPointer stack_out)
  | .Full .UseStackWithOffset => .ok (.RelativeStack stack_out)
  | .Full .UseCodePage => .error .EncodingViolation

/-- The body of decode (decode.rs lines 32 to 145) after the external
bit-layout parse.  The Rust function binds predicate, src1 and out in
order before the opcode match; since the let binding of out evaluates
(and can panic) eagerly, the Except bind on resolve_destination precedes
the opcode dispatch exactly as in the source. -/
def decode (w : ParsedWord) : Except DecodeError Instruction :=
  let predicate := predicateOf w.condition
  let src1 := resolve_source w
  match resolve_destination w with
  | .error e => .error e
  | .ok out =>
    let out2 := Register.new w.dst1_reg_idx
    let binop (op : BinopTag) (snd : Option Register) : Instruction :=
      .from_binop op src1 (Register.new w.src1_reg_idx) out snd predicate
        w.flag_swap_operands w.flag_set_flags
    match w.opcode with
    | .Add => .ok (binop .Add none)
    | .Sub => .ok (binop .Sub none)
    | .Mul => .ok (binop .Mul (some out2))
    | .Div => .ok (binop .Div (some out2))
    | .Binop .Xor => .ok (binop .Xor none)
    | .Binop .And => .ok (binop .And none)
    | .Binop .Or => .ok (binop .Or none)
    | .Shift .Shl => .ok (binop .ShiftLeft none)
    | .Shift .Shr => .ok (binop .ShiftRight none)
    | .Shift .Rol => .ok (binop .RotateLeft none)
    | .Shift .Ror => .ok (binop .RotateRight none)
    | .Jump => .ok (.from_jump src1 predicate)
    | .Context => .error .UnsupportedOpcode
    | .Ptr _ => .error .UnsupportedOpcode
    | .NearCall => .error .UnsupportedOpcode
    | .Log => .error .UnsupportedOpcode
    | .FarCall => .error .UnsupportedOpcode
    | .Ret => .error .UnsupportedOpcode
    | .UMA => .error .UnsupportedOpcode
    | .Invalid => .error .UnsupportedOpcode
    | .Nop =>
      let no_sp_movement : StackLikeParameters := ⟨0, Register.new 0⟩
      .ok (.from_nop
        (match src1 with
         | .AdvanceStackPointer pop => pop
         | _ => no_sp_movement)
        (match out with
         | .AdvanceStackPointer push => push
         | _ => no_sp_movement))

/-- The iterator pipeline map(decode).collect() over the truncated word
list: one instruction per word, with the first error (Rust panic)
aborting the whole run. -/
def decode_many : List ParsedWord → Except DecodeError (List Instruction)
  | [] => .ok []
  | w :: ws =>
    match decode w with
    | .error e => .error e
    | .ok i =>
      match decode_many ws with
      | .error e => .error e
      | .ok rest => .ok (i :: rest)

/-- decode_program (decode.rs lines 19 to 30): decode the first
min(n, 65536) words (take(1 shl 16)) and append one sentinel chosen by
whether the input length reaches 65536. -/
def decode_program (raw : List ParsedWord) : Except DecodeError (List Instruction) :=
  match decode_many (raw.take 65536) with
  | .error e => .error e
  | .ok body =>
    .ok (body ++ [if raw.length ≥ 65536 then Instruction.jump_to_beginning
                  else Instruction.end_execution])

/-! Sample parsed words used by the witness theorems. -/

/-- Sample word: add with register operands (spec Scenario A). -/
def addWord : ParsedWord :=
  { opcode := .Add, condition := .Always,
    src0_operand_type := .RegOnly, dst0_operand_type := .RegOnly,
    imm_0 := 0, imm_1 := 0,
    src0_reg_idx := 3, src1_reg_idx := 5, dst0_reg_idx := 7, dst1_reg_idx := 0,
    flag_swap_operands := false, flag_set_flags := true }

/-- Sample word: absolute-stack source operand. -/
def absWord : ParsedWord :=
  { opcode := .Add, condition := .Always,
    src0_operand_type := .Full .UseAbsoluteOnStack,
    dst0_operand_type := .RegOnly,
    imm_0 := 12, imm_1 := 34,
    src0_reg_idx := 3, src1_reg_idx := 5, dst0_reg_idx := 7, dst1_reg_idx := 0,
    flag_swap_operands := false, flag_set_flags := true }

/-- Sample word: destination tag requests a code-page write. -/
def badDstWord : ParsedWord :=
  { opcode := .Add, condition := .Always,
    src0_operand_type := .RegOnly,
    dst0_operand_type := .Full .UseCodePage,
    imm_0 := 0, imm_1 := 0,
    src0_reg_idx := 0, src1_reg_idx := 0, dst0_reg_idx := 0, dst1_reg_idx := 0,
    flag_swap_operands := false, flag_set_flags := false }

/-- Sample word: destination tag requests an immediate write. -/
def badDstImmWord : ParsedWord :=
  { opcode := .Jump, condition := .Always,
    src0_operand_type := .RegOnly,
    dst0_operand_type := .RegOrImm .UseImm16Only,
    imm_0 := 0, imm_1 := 0,
    src0_reg_idx := 0, src1_reg_idx := 0, dst0_reg_idx := 0, dst1_reg_idx := 0,
    flag_swap_operands := false, flag_set_flags := false }

/-- On success, decode_many returns one instruction per input word. -/
theorem decode_many_length {l : List ParsedWord} :
    ∀ {l2 : List Instruction}, decode_many l = .ok l2 → l2.length = l.length := by
  induction l with
  | nil =>
    intro l2 h
    simp only [decode_many] at h
    cases h
    rfl
  | cons w ws ih =>
    intro l2 h
    simp only [decode_many] at h
    cases hi : decode w with
    | error e => rw [hi] at h; simp at h
    | ok ins =>
      rw [hi] at h
      cases hr : decode_many ws with
      | error e => rw [hr] at h; simp at h
      | ok rest =>
        rw [hr] at h
        simp at h
        subst h
        simp [ih hr]

/-- On success, instruction i of decode_many is the decode of word i. -/
theorem decode_many_getElem {l : List ParsedWord} :
    ∀ {l2 : List Instruction}, decode_many l = .ok l2 → ∀ i : Nat,
      Option.map decode l[i]? = Option.map Except.ok l2[i]? := by
  induction l with
  | nil =>
    intro l2 h i
    simp only [decode_many] at h
    cases h
    rfl
  | cons w ws ih =>
    intro l2 h i
    simp only [decode_many] at h
    cases hi : decode w with
    | error e => rw [hi] at h; simp at h
    | ok ins =>
      rw [hi] at h
      cases hr : decode_many ws with
      | error e => rw [hr] at h; simp at h
      | ok rest =>
        rw [hr] at h
        simp at h
        subst h
        cases i with
        | zero => simpa using hi
        | succ n => simpa using ih hr n

/-- C1: on a successful run, decode_program yields exactly
min(n, 65536) + 1 instructions: instruction i is the decode of word i for
every i below min(n, 65536), and one synthesized instruction follows. -/
theorem decode_program_length_law (raw : List ParsedWord)
    (prog : List Instruction) (h : decode_program raw = .ok prog) :
    prog.length = min raw.length 65536 + 1 ∧
    ∀ i : Nat, i < min raw.length 65536 →
      Option.map decode raw[i]? = Option.map Except.ok prog[i]? := by
  simp only [decode_program] at h
  cases hb : decode_many (raw.take 65536) with
  | error e => rw [hb] at h; simp at h
  | ok body =>
    rw [hb] at h
    simp at h
    subst h
    have hlen : body.length = min raw.length 65536 := by
      rw [decode_many_length hb, List.length_take]
      exact Nat.min_comm _ _
    refine ⟨by simp [hlen], ?_⟩
    intro i hi
    have h1 : Option.map decode (raw.take 65536)[i]? =
        Option.map Except.ok body[i]? := decode_many_getElem hb i
    rw [List.getElem?_take, if_pos (by omega)] at h1
    rw [h1, List.getElem?_append, if_pos (by omega)]

/-- Witness for C1: the length law applied at a concrete one-word
program. -/
theorem decode_program_length_law_witness :
    ([Instruction.from_binop .Add (.Register1 (Register.new 3))
        (Register.new 5) (.Register1 (Register.new 7)) none .Always
        false true,
      Instruction.end_execution] : List Instruction).length =
      min [addWord].length 65536 + 1 :=
  (decode_program_length_law [addWord] _ rfl).1

/-- C2: on a successful run, the last instruction of the decoded program
is jump-to-beginning when the input has at least 65536 words and
end-execution otherwise. -/
theorem decode_program_sentinel (raw : List ParsedWord)
    (prog : List Instruction) (h : decode_program raw = .ok prog) :
    prog.getLast? =
      some (if raw.length ≥ 65536 then Instruction.jump_to_beginning
            else Instruction.end_execution) := by
  simp only [decode_program] at h
  cases hb : decode_many (raw.take 65536) with
  | error e => rw [hb] at h; simp at h
  | ok body =>
    rw [hb] at h
    simp at h
    subst h
    exact List.getLast?_concat _

/-- Witness for C2: the sentinel law applied at the empty program, whose
decode ends in end-execution. -/
theorem decode_program_sentinel_witness :
    ([Instruction.end_execution] : List Instruction).getLast? =
      some (if ([] : List ParsedWord).length ≥ 65536
            then Instruction.jump_to_beginning
            else Instruction.end_execution) :=
  decode_program_sentinel [] [Instruction.end_execution] rfl

/-- Sample word: no-op with a pop-adjustment source and a register
destination. -/
def nopPopWord : ParsedWord :=
  { opcode := .Nop, condition := .Always,
    src0_operand_type := .Full .UseStackWithPushPop,
    dst0_operand_type := .RegOnly,
    imm_0 := 7, imm_1 := 0,
    src0_reg_idx := 3, src1_reg_idx := 0, dst0_reg_idx := 2, dst1_reg_idx := 0,
    flag_swap_operands := false, flag_set_flags := false }

/-- Sample word: multiply with register operands and secondary
destination register 9. -/
def mulWord : ParsedWord :=
  { opcode := .Mul, condition := .Always,
    src0_operand_type := .RegOnly, dst0_operand_type := .RegOnly,
    imm_0 := 0, imm_1 := 0,
    src0_reg_idx := 3, src1_reg_idx := 5, dst0_reg_idx := 7, dst1_reg_idx := 9,
    flag_swap_operands := false, flag_set_flags := true }

/-- Sample word: context opcode combined with an immediate destination
tag. -/
def ctxBadWord : ParsedWord :=
  { opcode := .Context, condition := .Always,
    src0_operand_type := .RegOnly,
    dst0_operand_type := .Full .UseImm16Only,
    imm_0 := 0, imm_1 := 0,
    src0_reg_idx := 0, src1_reg_idx := 0, dst0_reg_idx := 0, dst1_reg_idx := 0,
    flag_swap_operands := false, flag_set_flags := false }

/-- Sample word: return opcode with a register destination tag. -/
def retWord : ParsedWord :=
  { opcode := .Ret, condition := .Always,
    src0_operand_type := .RegOnly, dst0_operand_type := .RegOnly,
    imm_0 := 0, imm_1 := 0,
    src0_reg_idx := 0, src1_reg_idx := 0, dst0_reg_idx := 0, dst1_reg_idx := 0,
    flag_swap_operands := false, flag_set_flags := false }

/-- C4: a no-op word keeps a resolved AdvanceStackPointer source (pop) as
the source side of the no-op instruction and otherwise substitutes the
zero-offset register-0 placeholder; symmetrically for the resolved
destination (push side); a word resolving to neither gets the
zero-adjustment placeholder on both sides. -/
theorem decode_nop_passthrough (w : ParsedWord) (out : AnyDestination)
    (hop : w.opcode = .Nop) (hout : resolve_destination w = .ok out) :
    decode w = .ok (.from_nop
      (match resolve_source w with
       | .AdvanceStackPointer p => p
       | _ => ⟨0, Register.new 0⟩)
      (match out with
       | .AdvanceStackPointer p => p
       | _ => ⟨0, Register.new 0⟩)) := by
  simp only [decode, hout, hop]
  cases out <;> rfl

/-- Witness for C4: the passthrough theorem applied at the
pop-source no-op sample word. -/
theorem decode_nop_passthrough_witness :
    decode nopPopWord =
      .ok (.from_nop ⟨7, Register.new 3⟩ ⟨0, Register.new 0⟩) :=
  decode_nop_passthrough nopPopWord (.Register1 (Register.new 2)) rfl rfl

/-- The optional second destination register bound by an instruction
record: the out2 argument of from_binop. -/
def second_destination : Instruction → Option Register
  | .from_binop _ _ _ _ out2 _ _ _ => out2
  | _ => none

/-- C5: multiply and divide words bind the secondary destination register
field (dst1) as the second destination of the built instruction, while
add, subtract, bitwise and shift/rotate words bind an empty second
destination. -/
theorem decode_second_destination (w : ParsedWord) (instr : Instruction)
    (h : decode w = .ok instr) :
    ((w.opcode = .Mul ∨ w.opcode = .Div) →
       second_destination instr = some (Register.new w.dst1_reg_idx)) ∧
    ((w.opcode = .Add ∨ w.opcode = .Sub ∨ (∃ x, w.opcode = .Binop x) ∨
      (∃ x, w.opcode = .Shift x)) →
       second_destination instr = none) := by
  cases hd : resolve_destination w with
  | error e => simp [decode, hd] at h
  | ok out =>
    simp only [decode, hd] at h
    constructor
    · rintro (hop | hop) <;> rw [hop] at h <;> simp at h <;>
        simp [← h, second_destination]
    · rintro (hop | hop | ⟨x, hop⟩ | ⟨x, hop⟩) <;> rw [hop] at h
      · simp at h; simp [← h, second_destination]
      · simp at h; simp [← h, second_destination]
      · cases x <;> (simp at h; simp [← h, second_destination])
      · cases x <;> (simp at h; simp [← h, second_destination])

/-- Witness for C5: the second-destination law applied at the multiply
sample word, whose decoded instruction binds register 9. -/
theorem decode_second_destination_witness :
    second_destination
      (Instruction.from_binop .Mul (.Register1 (Register.new 3))
        (Register.new 5) (.Register1 (Register.new 7))
        (some (Register.new 9)) .Always false true) =
      some (Register.new mulWord.dst1_reg_idx) :=
  (decode_second_destination mulWord _ rfl).1 (Or.inl rfl)

/-- Counterexample for C7: a word with the context opcode family and an
immediate-16 destination tag aborts with EncodingViolation, not with
UnsupportedOpcode as the claim states for every such word. -/
theorem decode_unsupported_counterexample :
    decode ctxBadWord = .error .EncodingViolation ∧
    decode ctxBadWord ≠ .error .UnsupportedOpcode := by
  have h1 : decode ctxBadWord = .error .EncodingViolation := rfl
  exact ⟨h1, by simp [h1]⟩

/-- C7 amended: for every word whose opcode family is context, pointer,
near-call, log, far-call, return, unaligned-memory-access or the
explicit-invalid marker, decoding never produces an instruction: it fails
with UnsupportedOpcode whenever the destination tag resolves, while a
word whose destination tag is itself invalid aborts earlier with
EncodingViolation. -/
theorem decode_unsupported (w : ParsedWord)
    (hop : w.opcode = .Context ∨ (∃ x, w.opcode = .Ptr x) ∨
           w.opcode = .NearCall ∨ w.opcode = .Log ∨ w.opcode = .FarCall ∨
           w.opcode = .Ret ∨ w.opcode = .UMA ∨ w.opcode = .Invalid) :
    (∀ instr : Instruction, decode w ≠ .ok instr) ∧
    (∀ out : AnyDestination, resolve_destination w = .ok out →
       decode w = .error .UnsupportedOpcode) := by
  have key : ∀ out : AnyDestination, resolve_destination w = .ok out →
      decode w = .error .UnsupportedOpcode := by
    intro out hd
    simp only [decode, hd]
    rcases hop with h | ⟨x, h⟩ | h | h | h | h | h | h
    · simp [h]
    · cases x <;> simp [h]
    · simp [h]
    · simp [h]
    · simp [h]
    · simp [h]
    · simp [h]
    · simp [h]
  refine ⟨?_, key⟩
  intro instr hcontra
  cases hd : resolve_destination w with
  | error e => simp [decode, hd] at hcontra
  | ok out =>
    rw [key out hd] at hcontra
    exact Except.noConfusion hcontra

/-- Witness for C7: the amended theorem applied at the return-opcode
sample word, which decodes to the UnsupportedOpcode failure. -/
theorem decode_unsupported_witness :
    decode retWord = .error .UnsupportedOpcode :=
  (decode_unsupported retWord
      (Or.inr (Or.inr (Or.inr (Or.inr (Or.inr (Or.inl rfl))))))).2
    (.Register1 (Register.new 0)) rfl

/-- C6: the predicate mapper is a total injective function on the 8
condition codes: each code maps to exactly one Predicate value, distinct
codes map to distinct Predicate values, and the mapper is a total Lean
function, so it never fails. -/
theorem predicateOf_injective :
    ∀ c1 c2 : Condition, predicateOf c1 = predicateOf c2 → c1 = c2 := by
  decide

/-- Witness for C6: the injectivity theorem applied at a concrete pair of
condition codes. -/
theorem predicateOf_injective_witness : Condition.Gt = Condition.Gt :=
  predicateOf_injective .Gt .Gt rfl

/-- C8: source operand resolution is total and exhaustive over the source
encoding-tag space: each of the nine tags maps to exactly one of the six
AnySource kinds, and the resolver returns a plain AnySource, so it has no
failure branch. -/
theorem resolve_source_total (w : ParsedWord) :
    ((w.src0_operand_type = .RegOnly ∨
      w.src0_operand_type = .RegOrImm .UseRegOnly ∨
      w.src0_operand_type = .Full .UseRegOnly) →
        resolve_source w = .Register1 (Register.new w.src0_reg_idx)) ∧
    ((w.src0_operand_type = .RegOrImm .UseImm16Only ∨
      w.src0_operand_type = .Full .UseImm16Only) →
        resolve_source w = .Immediate1 w.imm_0) ∧
    (w.src0_operand_type = .Full .UseAbsoluteOnStack →
        resolve_source w = .AbsoluteStack ⟨w.imm_0, Register.new w.src0_reg_idx⟩) ∧
    (w.src0_operand_type = .Full .UseStackWithPushPop →
        resolve_source w = .AdvanceStackPointer ⟨w.imm_0, Register.new w.src0_reg_idx⟩) ∧
    (w.src0_operand_type = .Full .UseStackWithOffset →
        resolve_source w = .RelativeStack ⟨w.imm_0, Register.new w.src0_reg_idx⟩) ∧
    (w.src0_operand_type = .Full .UseCodePage →
        resolve_source w = .CodePage ⟨w.imm_0, Register.new w.src0_reg_idx⟩) := by
  refine ⟨?_, ?_, ?_, ?_, ?_, ?_⟩
  · rintro (h | h | h) <;> simp [resolve_source, h]
  · rintro (h | h) <;> simp [resolve_source, h]
  · intro h; simp [resolve_source, h]
  · intro h; simp [resolve_source, h]
  · intro h; simp [resolve_source, h]
  · intro h; simp [resolve_source, h]

/-- Witness for C8: the totality theorem applied at the absolute-stack
sample word. -/
theorem resolve_source_total_witness :
    resolve_source absWord = .AbsoluteStack ⟨12, Register.new 3⟩ :=
  (resolve_source_total absWord).2.2.1 rfl

/-- C3: any word whose destination encoding tag denotes immediate-16 or
code-page makes destination resolution, and hence the whole decode, abort
with EncodingViolation; no substituted addressing mode and no instruction
is ever produced for such a word. -/
theorem decode_bad_destination (w : ParsedWord)
    (h : w.dst0_operand_type = .RegOrImm .UseImm16Only ∨
         w.dst0_operand_type = .Full .UseImm16Only ∨
         w.dst0_operand_type = .Full .UseCodePage) :
    resolve_destination w = .error .EncodingViolation ∧
    decode w = .error .EncodingViolation := by
  have hd : resolve_destination w = .error .EncodingViolation := by
    rcases h with h | h | h <;> simp [resolve_destination, h]
  exact ⟨hd, by simp [decode, hd]⟩

/-- Witness for C3: the abort theorem applied at the code-page-destination
sample word. -/
theorem decode_bad_destination_witness :
    resolve_destination badDstWord = .error .EncodingViolation ∧
    decode badDstWord = .error .EncodingViolation :=
  decode_bad_destination badDstWord (Or.inr (Or.inr rfl))

/-- C9: destination resolution runs before opcode dispatch: for a word
with an immediate-16 or code-page destination tag, every choice of opcode
family (jump and no-op included, whose built instructions would not use
the resolved destination) still aborts with EncodingViolation. -/
theorem decode_bad_destination_any_opcode (w : ParsedWord) (op : Opcode)
    (h : w.dst0_operand_type = .RegOrImm .UseImm16Only ∨
         w.dst0_operand_type = .Full .UseImm16Only ∨
         w.dst0_operand_type = .Full .UseCodePage) :
    decode { w with opcode := op } = .error .EncodingViolation := by
  have hd : resolve_destination { w with opcode := op } =
      .error .EncodingViolation := by
    rcases h with h | h | h <;> simp [resolve_destination, h]
  simp [decode, hd]

/-- Witness for C9: the dispatch-order theorem applied at the
immediate-destination sample word with the no-op opcode substituted. -/
theorem decode_bad_destination_any_opcode_witness :
    decode { badDstImmWord with opcode := Opcode.Nop } =
      .error .EncodingViolation :=
  decode_bad_destination_any_opcode badDstImmWord .Nop (Or.inl rfl)

/-- C10: stack-like source operands take their StackLikeParameters from
the first immediate and the source-0 register index, while stack-like
destination operands take theirs from the second immediate and the
destination-0 register index, so the two addressing parameter sets come
from disjoint fields of the parsed word. -/
theorem stack_parameters_disjoint (w : ParsedWord) (p : StackLikeParameters) :
    ((resolve_source w = .AbsoluteStack p ∨
      resolve_source w = .AdvanceStackPointer p ∨
      resolve_source w = .RelativeStack p ∨
      resolve_source w = .CodePage p) →
        p = ⟨w.imm_0, Register.new w.src0_reg_idx⟩) ∧
    ((resolve_destination w = .ok (.AbsoluteStack p) ∨
      resolve_destination w = .ok (.AdvanceStackPointer p) ∨
      resolve_destination w = .ok (.RelativeStack p)) →
        p = ⟨w.imm_1, Register.new w.dst0_reg_idx⟩) := by
  constructor
  · intro h
    rcases hs : w.src0_operand_type with _ | f | f
    · rw [resolve_source, hs] at h
      simp at h
    · cases f <;> (rw [resolve_source, hs] at h; simp at h)
    · cases f <;> (rw [resolve_source, hs] at h; simp_all)
  · intro h
    rcases hs : w.dst0_operand_type with _ | f | f
    · rw [resolve_destination, hs] at h
      simp at h
    · cases f <;> (rw [resolve_destination, hs] at h; simp at h)
    · cases f <;> (rw [resolve_destination, hs] at h; simp_all)

/-- Witness for C10: the disjoint-fields theorem applied at the
absolute-stack sample word with its concrete parameter pair. -/
theorem stack_parameters_disjoint_witness :
    (⟨12, Register.new 3⟩ : StackLikeParameters) =
      ⟨absWord.imm_0, Register.new absWord.src0_reg_idx⟩ :=
  (stack_parameters_disjoint absWord ⟨12, Register.new 3⟩).1 (Or.inl rfl)

end Vm2
